import Mathlib

/-!
Verification development for the MapMyShots repository, a browser-based
photo-route mapping tool.  The numeric helpers, upload handlers and GPX
serialisation/deserialisation of `src/App.tsx`, `src/utils/gpx.ts` and
`src/components/ImageViewer.tsx` are shallowly embedded below:

* JavaScript numbers carrying coordinates, zoom levels and EXIF fields are
  modelled as rationals (`ℚ`); the trigonometric distance computation is
  modelled over the reals (`ℝ`).
* Parsed XML documents (the output of `DOMParser.parseFromString`) are
  modelled as a tree of elements; `getElementsByTagName` is the pre-order
  (document-order) collection of matching elements.
* React `useState` cells touched by one handler are grouped into a state
  record, and each handler becomes a state-transition function.
-/

namespace MapMyShots

/-- Embeds `calculateSampleRate` from `src/components/ImageViewer.tsx`
(lines 786-794): the zoom-dependent marker decimation table.  The zoom
level is a JavaScript number (Leaflet allows fractional zoom), modelled
as `ℚ`. -/
def calculateSampleRate (zoom : ℚ) : ℕ :=
  if 18 ≤ zoom then 1
  else if 17 ≤ zoom then 6
  else if 16 ≤ zoom then 12
  else if 15 ≤ zoom then 18
  else if 14 ≤ zoom then 24
  else if 13 ≤ zoom then 30
  else 40

set_option maxHeartbeats 1600000 in
/-- C3: the zoom-to-sample-rate lookup is exactly the piecewise-constant
function of the claim, and it is monotonically non-increasing in the zoom
level. -/
theorem calculateSampleRate_table_antitone :
    (∀ z : ℚ, 18 ≤ z → calculateSampleRate z = 1) ∧
    (∀ z : ℚ, 17 ≤ z → z < 18 → calculateSampleRate z = 6) ∧
    (∀ z : ℚ, 16 ≤ z → z < 17 → calculateSampleRate z = 12) ∧
    (∀ z : ℚ, 15 ≤ z → z < 16 → calculateSampleRate z = 18) ∧
    (∀ z : ℚ, 14 ≤ z → z < 15 → calculateSampleRate z = 24) ∧
    (∀ z : ℚ, 13 ≤ z → z < 14 → calculateSampleRate z = 30) ∧
    (∀ z : ℚ, z < 13 → calculateSampleRate z = 40) ∧
    (∀ z w : ℚ, z ≤ w → calculateSampleRate w ≤ calculateSampleRate z) := by
  refine ⟨?_, ?_, ?_, ?_, ?_, ?_, ?_, ?_⟩
  · intro z h; simp only [calculateSampleRate]; split_ifs <;> first | rfl | linarith
  · intro z h1 h2; simp only [calculateSampleRate]; split_ifs <;> first | rfl | linarith
  · intro z h1 h2; simp only [calculateSampleRate]; split_ifs <;> first | rfl | linarith
  · intro z h1 h2; simp only [calculateSampleRate]; split_ifs <;> first | rfl | linarith
  · intro z h1 h2; simp only [calculateSampleRate]; split_ifs <;> first | rfl | linarith
  · intro z h1 h2; simp only [calculateSampleRate]; split_ifs <;> first | rfl | linarith
  · intro z h; simp only [calculateSampleRate]; split_ifs <;> first | rfl | linarith
  · intro z w h; simp only [calculateSampleRate]
    split_ifs <;> linarith

/-- Witness for C3 at concrete zoom levels. -/
theorem calculateSampleRate_table_antitone_witness :
    calculateSampleRate 18 = 1 ∧ calculateSampleRate (35/2) = 6 ∧
    calculateSampleRate 10 = 40 ∧
    calculateSampleRate 16 ≤ calculateSampleRate 14 :=
  ⟨calculateSampleRate_table_antitone.1 18 (by norm_num),
   calculateSampleRate_table_antitone.2.1 (35/2) (by norm_num) (by norm_num),
   calculateSampleRate_table_antitone.2.2.2.2.2.2.1 10 (by norm_num),
   calculateSampleRate_table_antitone.2.2.2.2.2.2.2 14 16 (by norm_num)⟩

/-- Embeds the `ImageMetadata` interface from `src/types/index.ts`.
Numeric EXIF fields are JavaScript numbers, modelled as `ℚ`; optional
fields are `Option`s; the timestamp (a `Date`) is modelled as its
numeric epoch value. -/
structure ImageMetadata where
  latitude : ℚ
  longitude : ℚ
  timestamp : Option ℚ
  make : Option String
  model : Option String
  fileName : String
  url : String
  altitude : Option ℚ
  exposureTime : Option ℚ
  fNumber : Option ℚ
  iso : Option ℚ
  focalLength : Option ℚ
  deriving DecidableEq, Inhabited

/-- A parsed XML element, the model of a DOM element produced by
`DOMParser.parseFromString`.  Attribute values that the code reads are
always fed to `parseFloat`, so an attribute is modelled as the rational
number `parseFloat` yields on its string value (JavaScript
number-to-string-to-number round-trips are the identity on the values
the code writes); `text` models `textContent`. -/
inductive XmlElem where
  | mk (tag : String) (attrs : List (String × ℚ)) (text : String) (children : List XmlElem)

instance : Inhabited XmlElem := ⟨.mk "" [] "" []⟩

def XmlElem.tag : XmlElem → String
  | .mk t _ _ _ => t

def XmlElem.attrs : XmlElem → List (String × ℚ)
  | .mk _ a _ _ => a

def XmlElem.text : XmlElem → String
  | .mk _ _ s _ => s

def XmlElem.children : XmlElem → List XmlElem
  | .mk _ _ _ cs => cs

/-- Models `elem.getAttribute(name)`: the value of the first attribute
with the given name, or `none` when the attribute is missing. -/
def XmlElem.getAttr (e : XmlElem) (name : String) : Option ℚ :=
  (e.attrs.find? (fun p => p.1 == name)).map (fun p => p.2)

mutual

/-- Models `document.getElementsByTagName(tag)`: all elements of the tree
with the given tag, in document (pre-order) order, the root included. -/
def elemsByTag (tag : String) : XmlElem → List XmlElem
  | .mk t a s cs =>
      (if t = tag then [XmlElem.mk t a s cs] else []) ++ elemsByTagList tag cs

/-- `elemsByTag` mapped over a forest of sibling elements; applied to
`e.children` it models the element-level `e.getElementsByTagName(tag)`
(descendants only). -/
def elemsByTagList (tag : String) : List XmlElem → List XmlElem
  | [] => []
  | c :: cs => elemsByTag tag c ++ elemsByTagList tag cs

end

/-- JavaScript truthiness of an optional number: `undefined`, `0` and
`NaN` are falsy (`NaN` does not arise over `ℚ`). -/
def qTruthy : Option ℚ → Bool
  | none => false
  | some v => v != 0

/-- JavaScript truthiness of an optional string: `undefined` and the
empty string are falsy. -/
def strTruthy : Option String → Bool
  | none => false
  | some s => s != ""

/-- The `cmt` text `[img.make, img.model].filter(Boolean).join(' ')`
built by `generateGPX` in `src/utils/gpx.ts`. -/
def cmtText (img : ImageMetadata) : String :=
  String.intercalate " "
    (([img.make, img.model].filterMap id).filter (fun s => s != ""))

/-- The children of a serialised track point: a `time` element when the
image has a truthy timestamp, and a `cmt` element when it has a truthy
make or model (`src/utils/gpx.ts`, lines 6-16). -/
def pointChildren (img : ImageMetadata) : List XmlElem :=
  (match img.timestamp with
   | some t => [XmlElem.mk "time" [] (toString t) []]
   | none => []) ++
  (if strTruthy img.make || strTruthy img.model then
    [XmlElem.mk "cmt" [] (cmtText img) []]
   else [])

/-- The `trkpt` element serialised for one image: `lat` and `lon`
attributes from the image's coordinates (`new Point(img.latitude,
img.longitude)` in `src/utils/gpx.ts`). -/
def trkptOf (img : ImageMetadata) : XmlElem :=
  XmlElem.mk "trkpt" [("lat", img.latitude), ("lon", img.longitude)] ""
    (pointChildren img)

/-- Embeds `generateGPX` from `src/utils/gpx.ts` (lines 5-30): the GPX
document built by `gpx-builder` from the images — a `gpx` root holding a
`metadata` element and one `trk` > `trkseg` whose track points are the
images' coordinates in order.  The XML string returned by `buildGPX` is
modelled by the element tree it serialises. -/
def generateGPX (images : List ImageMetadata) : XmlElem :=
  XmlElem.mk "gpx" [] ""
    [XmlElem.mk "metadata" [] ""
      [XmlElem.mk "name" [] "Photo Route" [],
       XmlElem.mk "desc" []
         ("Route generated from " ++ toString images.length ++ " photos") [],
       XmlElem.mk "time" [] "" []],
     XmlElem.mk "trk" [] ""
       [XmlElem.mk "trkseg" [] "" (images.map trkptOf)]]

/-- Embeds `parseGPX` from `src/utils/gpx.ts` (lines 32-47): collect the
`trkpt` elements of the parsed document and push, for `i` from `0` to
`trackPoints.length - 1`, the pair
`(parseFloat(pt.getAttribute('lat') || '0'), parseFloat(pt.getAttribute('lon') || '0'))`. -/
def parseGPX (doc : XmlElem) : List (ℚ × ℚ) :=
  let trackPoints := elemsByTag "trkpt" doc
  (List.range trackPoints.length).foldl
    (fun coordinates i =>
      let point := trackPoints.getD i default
      coordinates ++ [((point.getAttr "lat").getD 0, (point.getAttr "lon").getD 0)])
    []

lemma foldl_push_range {β : Type} (f : ℕ → β) :
    ∀ (n : ℕ) (a : List β),
      (List.range n).foldl (fun acc i => acc ++ [f i]) a
        = a ++ (List.range n).map f := by
  intro n
  induction n with
  | zero => intro a; simp
  | succ n ih =>
      intro a
      simp [List.range_succ, List.foldl_append, ih]

lemma map_getD_range {α β : Type} [Inhabited α] (g : α → β) :
    ∀ l : List α,
      (List.range l.length).map (fun i => g (l.getD i default)) = l.map g := by
  intro l
  induction l with
  | nil => simp
  | cons x xs ih =>
      simp only [List.length_cons, List.range_succ_eq_map, List.map_cons,
        List.map_map]
      refine congrArg₂ _ rfl ?_
      have h : ((fun i => g ((x :: xs).getD i default)) ∘ Nat.succ)
          = fun i => g (xs.getD i default) := funext (fun i => rfl)
      rw [h]
      exact ih

lemma parseGPX_eq (doc : XmlElem) :
    parseGPX doc
      = (elemsByTag "trkpt" doc).map
          (fun p => ((p.getAttr "lat").getD 0, (p.getAttr "lon").getD 0)) := by
  unfold parseGPX
  rw [foldl_push_range]
  simpa using map_getD_range
    (fun p : XmlElem => ((p.getAttr "lat").getD 0, (p.getAttr "lon").getD 0))
    (elemsByTag "trkpt" doc)

lemma elemsByTagList_append (tag : String) (l1 l2 : List XmlElem) :
    elemsByTagList tag (l1 ++ l2)
      = elemsByTagList tag l1 ++ elemsByTagList tag l2 := by
  induction l1 with
  | nil => simp [elemsByTagList]
  | cons c cs ih => simp [elemsByTagList, ih]

lemma elemsByTagList_pointChildren (img : ImageMetadata) :
    elemsByTagList "trkpt" (pointChildren img) = [] := by
  unfold pointChildren
  rw [elemsByTagList_append]
  cases img.timestamp <;>
    by_cases hc : (strTruthy img.make || strTruthy img.model) = true <;>
      simp [elemsByTagList, elemsByTag, hc]

lemma elemsByTagList_trkpts (images : List ImageMetadata) :
    elemsByTagList "trkpt" (images.map trkptOf) = images.map trkptOf := by
  induction images with
  | nil => rfl
  | cons img rest ih =>
      simp [List.map_cons, elemsByTagList, elemsByTag, trkptOf,
        elemsByTagList_pointChildren, ih]

lemma elemsByTag_generateGPX (images : List ImageMetadata) :
    elemsByTag "trkpt" (generateGPX images) = images.map trkptOf := by
  simp [generateGPX, elemsByTag, elemsByTagList, elemsByTagList_trkpts]

/-- C1: round-trip of GPX serialisation and deserialisation — parsing the
document produced by `generateGPX images` with `parseGPX` yields exactly
the `(latitude, longitude)` pairs of the images, one per image, in
order. -/
theorem parseGPX_generateGPX_roundtrip (images : List ImageMetadata) :
    parseGPX (generateGPX images)
      = images.map (fun img => (img.latitude, img.longitude)) := by
  rw [parseGPX_eq, elemsByTag_generateGPX, List.map_map]
  rfl

/-- C5: `parseGPX` produces exactly one coordinate pair per `trkpt`
element, in document order, each pair read from the element's `lat` and
`lon` attributes with a missing attribute defaulting to `0`. -/
theorem parseGPX_one_pair_per_trkpt (doc : XmlElem) :
    (parseGPX doc).length = (elemsByTag "trkpt" doc).length ∧
    parseGPX doc
      = (elemsByTag "trkpt" doc).map
          (fun p => ((p.getAttr "lat").getD 0, (p.getAttr "lon").getD 0)) :=
  ⟨by rw [parseGPX_eq]; simp, parseGPX_eq doc⟩

/-- The result of `exifr.parse(file, true)`: the EXIF fields
`handleImageUpload` reads, each possibly `undefined`.  Numeric fields
(including the GPS coordinates) are modelled as `ℚ`, `Date`-valued
fields by their epoch value. -/
structure ExifData where
  latitude : Option ℚ
  longitude : Option ℚ
  DateTimeOriginal : Option ℚ
  CreateDate : Option ℚ
  Make : Option String
  Model : Option String
  GPSAltitude : Option ℚ
  ExposureTime : Option ℚ
  FNumber : Option ℚ
  ISO : Option ℚ
  FocalLength : Option ℚ
  deriving DecidableEq

/-- An uploaded browser `File` together with the outcome of the external
calls made on it: `exif` is what `exifr.parse` returns (`none` when the
parser yields no metadata object) and `url` is the object URL
`URL.createObjectURL` hands back for it. -/
structure JsFile where
  name : String
  url : String
  exif : Option ExifData
  deriving DecidableEq

/-- The `ImageMetadata` record `handleImageUpload` pushes for a file
whose metadata passed the GPS check (`src/App.tsx`, lines 65-78).
`timestamp` is `metadata.DateTimeOriginal || metadata.CreateDate`
(a present `Date` object is always truthy). -/
def imageOfFile (file : JsFile) (m : ExifData) : ImageMetadata :=
  { latitude := m.latitude.getD 0
    longitude := m.longitude.getD 0
    timestamp := m.DateTimeOriginal.orElse (fun _ => m.CreateDate)
    make := m.Make
    model := m.Model
    fileName := file.name
    url := file.url
    altitude := m.GPSAltitude
    exposureTime := m.ExposureTime
    fNumber := m.FNumber
    iso := m.ISO
    focalLength := m.FocalLength }

/-- One iteration of the collection loop of `handleImageUpload`
(`src/App.tsx`, lines 62-80): parse the file's EXIF data and push an
entry exactly when `metadata?.latitude && metadata?.longitude` is
truthy. -/
def uploadStep (newImages : List ImageMetadata) (file : JsFile) :
    List ImageMetadata :=
  match file.exif with
  | some m =>
      if qTruthy m.latitude && qTruthy m.longitude then
        newImages ++ [imageOfFile file m]
      else newImages
  | none => newImages

/-- The collection loop of `handleImageUpload` over all files, starting
from the empty `newImages` array. -/
def processFiles (files : List JsFile) : List ImageMetadata :=
  files.foldl uploadStep []

/-- The contribution of a single file to the upload: `some` entry when
the GPS truthiness check passes, `none` otherwise. -/
def geotagged (file : JsFile) : Option ImageMetadata :=
  match file.exif with
  | some m =>
      if qTruthy m.latitude && qTruthy m.longitude then
        some (imageOfFile file m)
      else none
  | none => none

lemma foldl_geotag (files : List JsFile) :
    ∀ acc : List ImageMetadata,
      files.foldl uploadStep acc = acc ++ files.filterMap geotagged := by
  induction files with
  | nil => intro acc; simp
  | cons f fs ih =>
      intro acc
      rw [List.foldl_cons, List.filterMap_cons, ih]
      cases hf : f.exif with
      | none => simp [uploadStep, geotagged, hf]
      | some m =>
          by_cases hb : (qTruthy m.latitude && qTruthy m.longitude) = true <;>
            simp [uploadStep, geotagged, hf, hb]

lemma processFiles_eq_filterMap (files : List JsFile) :
    processFiles files = files.filterMap geotagged := by
  unfold processFiles
  simpa using foldl_geotag files []

/-- The map-tab `useState` cells touched by `handleImageUpload`,
`handleNext` and `handlePrevious` (`src/App.tsx`, lines 40-45). -/
structure MapState where
  images : List ImageMetadata
  selectedImageIndex : ℤ
  loading : Bool
  error : Option String
  deriving DecidableEq

/-- Embeds `handleImageUpload` (`src/App.tsx`, lines 51-96) on its
non-throwing path: clear the error, collect the geotagged entries, and
either report `No GPS data found …` leaving the images untouched, or
replace the images and reset the selection; `loading` ends `false`
either way. -/
def handleImageUpload (files : List JsFile) (s : MapState) : MapState :=
  let newImages := processFiles files
  if newImages.length = 0 then
    { s with
        error := some "No GPS data found in the uploaded images. Please ensure your images contain GPS information."
        loading := false }
  else
    { s with
        images := newImages
        selectedImageIndex := 0
        error := none
        loading := false }

/-- Embeds `handleNext` (`src/App.tsx`, line 178):
`setSelectedImageIndex(prev => Math.min(prev + 1, images.length - 1))`. -/
def handleNext (s : MapState) : MapState :=
  { s with
      selectedImageIndex :=
        min (s.selectedImageIndex + 1) ((s.images.length : ℤ) - 1) }

/-- Embeds `handlePrevious` (`src/App.tsx`, line 182):
`setSelectedImageIndex(prev => Math.max(prev - 1, 0))`. -/
def handlePrevious (s : MapState) : MapState :=
  { s with selectedImageIndex := max (s.selectedImageIndex - 1) 0 }

/-- EXIF metadata of a photo taken on the equator: GPS latitude `0` and
longitude `5` are both present. -/
def exifEquator : ExifData :=
  { latitude := some 0, longitude := some 5, DateTimeOriginal := none,
    CreateDate := none, Make := none, Model := none, GPSAltitude := none,
    ExposureTime := none, FNumber := none, ISO := none, FocalLength := none }

/-- A file whose EXIF metadata is `exifEquator`. -/
def fileEquator : JsFile :=
  { name := "equator.jpg", url := "blob:equator.jpg", exif := some exifEquator }

/-- C4 counterexample: a file whose EXIF metadata contains both a GPS
latitude (`0`, on the equator) and a GPS longitude (`5`) is nevertheless
not added — the JavaScript truthiness test
`metadata?.latitude && metadata?.longitude` rejects the coordinate `0`. -/
theorem processFiles_drops_zero_latitude :
    fileEquator.exif = some exifEquator ∧
    exifEquator.latitude = some 0 ∧ exifEquator.longitude = some 5 ∧
    processFiles [fileEquator] = [] := by
  refine ⟨rfl, rfl, rfl, ?_⟩
  rfl

/-- C4 (amended): an uploaded file contributes an entry with its GPS
coordinates exactly when its metadata's latitude and longitude are both
present and truthy (nonzero); every plotted entry comes from such a
file. -/
theorem processFiles_truthy_gps (files : List JsFile) :
    (∀ f ∈ files, ∀ m : ExifData, f.exif = some m →
       qTruthy m.latitude = true → qTruthy m.longitude = true →
       ∃ img ∈ processFiles files,
         img.latitude = m.latitude.getD 0 ∧
         img.longitude = m.longitude.getD 0) ∧
    (∀ img ∈ processFiles files, ∃ f ∈ files, ∃ m : ExifData,
       f.exif = some m ∧ qTruthy m.latitude = true ∧
       qTruthy m.longitude = true ∧ img = imageOfFile f m) := by
  constructor
  · intro f hf m hm hlat hlon
    refine ⟨imageOfFile f m, ?_, rfl, rfl⟩
    rw [processFiles_eq_filterMap]
    exact List.mem_filterMap.mpr ⟨f, hf, by simp [geotagged, hm, hlat, hlon]⟩
  · intro img himg
    rw [processFiles_eq_filterMap] at himg
    obtain ⟨f, hf, hgf⟩ := List.mem_filterMap.mp himg
    refine ⟨f, hf, ?_⟩
    unfold geotagged at hgf
    cases hm : f.exif with
    | none => rw [hm] at hgf; simp at hgf
    | some m =>
        rw [hm] at hgf
        have hgf2 : (if (qTruthy m.latitude && qTruthy m.longitude) = true
            then some (imageOfFile f m) else none) = some img := hgf
        by_cases hb : (qTruthy m.latitude && qTruthy m.longitude) = true
        · rw [if_pos hb] at hgf2
          rcases Bool.and_eq_true_iff.mp hb with ⟨h1, h2⟩
          exact ⟨m, rfl, h1, h2, (Option.some_inj.mp hgf2).symm⟩
        · rw [if_neg hb] at hgf2; simp at hgf2

/-- EXIF metadata with truthy GPS coordinates `(1, 2)`. -/
def exifSample : ExifData :=
  { latitude := some 1, longitude := some 2, DateTimeOriginal := none,
    CreateDate := none, Make := none, Model := none, GPSAltitude := none,
    ExposureTime := none, FNumber := none, ISO := none, FocalLength := none }

/-- A file whose EXIF metadata is `exifSample`. -/
def fileSample : JsFile :=
  { name := "sample.jpg", url := "blob:sample.jpg", exif := some exifSample }

/-- Witness for the amended C4 at a concrete geotagged file. -/
theorem processFiles_truthy_gps_witness :
    ∃ img ∈ processFiles [fileSample], img.latitude = 1 ∧ img.longitude = 2 := by
  have h := (processFiles_truthy_gps [fileSample]).1 fileSample (by simp)
    exifSample rfl (by decide) (by decide)
  simpa using h

/-- C7: image upload is atomic on failure — when no file yields GPS
coordinates the images and selection are untouched and an error message
is set; otherwise the images are replaced by exactly the geotagged
entries in file order, the selection is reset to `0` and the error is
cleared. -/
theorem handleImageUpload_atomic (files : List JsFile) (s : MapState) :
    (processFiles files = [] →
       (handleImageUpload files s).images = s.images ∧
       (handleImageUpload files s).selectedImageIndex
         = s.selectedImageIndex ∧
       (handleImageUpload files s).error ≠ none) ∧
    (processFiles files ≠ [] →
       (handleImageUpload files s).images = files.filterMap geotagged ∧
       (handleImageUpload files s).selectedImageIndex = 0 ∧
       (handleImageUpload files s).error = none) := by
  constructor
  · intro h
    simp [handleImageUpload, h]
  · intro h
    have hlen : ¬(processFiles files).length = 0 := by
      simpa using h
    simp only [handleImageUpload]
    rw [if_neg hlen]
    exact ⟨processFiles_eq_filterMap files, rfl, rfl⟩

/-- Witness for C7: uploading no files over a populated state leaves the
images and the selection alone and reports an error. -/
theorem handleImageUpload_atomic_witness :
    (handleImageUpload [] (MapState.mk [] 5 false none)).images = [] ∧
    (handleImageUpload [] (MapState.mk [] 5 false none)).selectedImageIndex
      = 5 ∧
    (handleImageUpload [] (MapState.mk [] 5 false none)).error ≠ none :=
  (handleImageUpload_atomic [] (MapState.mk [] 5 false none)).1 rfl

/-- C8: photo navigation keeps the selected index within
`[0, images.length - 1]`, `handleNext` is the identity on the last
index, and `handlePrevious` is the identity on index `0`. -/
theorem nav_index_in_bounds (s : MapState) (hne : s.images ≠ [])
    (h0 : 0 ≤ s.selectedImageIndex)
    (h1 : s.selectedImageIndex ≤ (s.images.length : ℤ) - 1) :
    (0 ≤ (handleNext s).selectedImageIndex ∧
     (handleNext s).selectedImageIndex ≤ (s.images.length : ℤ) - 1) ∧
    (0 ≤ (handlePrevious s).selectedImageIndex ∧
     (handlePrevious s).selectedImageIndex ≤ (s.images.length : ℤ) - 1) ∧
    (s.selectedImageIndex = (s.images.length : ℤ) - 1 →
      (handleNext s).selectedImageIndex = s.selectedImageIndex) ∧
    (s.selectedImageIndex = 0 →
      (handlePrevious s).selectedImageIndex = 0) := by
  have hlen : 0 < s.images.length := List.length_pos.mpr hne
  have hlen' : 1 ≤ (s.images.length : ℤ) := by exact_mod_cast hlen
  simp only [handleNext, handlePrevious]
  omega

/-- Witness for C8 on a one-image state at index `0`. -/
theorem nav_index_in_bounds_witness :
    (handleNext (MapState.mk [default] 0 false none)).selectedImageIndex
      = 0 ∧
    (handlePrevious (MapState.mk [default] 0 false none)).selectedImageIndex
      = 0 := by
  have h := nav_index_in_bounds (MapState.mk [default] 0 false none)
    (by simp) (by norm_num) (by simp)
  exact ⟨by simpa using h.2.2.1 (by simp), h.2.2.2 rfl⟩

/-- The `GPXPoint` interface defined inside `src/App.tsx` (lines
196-201). -/
structure GPXPoint where
  lat : ℚ
  lon : ℚ
  name : Option String
  time : Option String
  deriving DecidableEq

/-- Models `element.textContent || undefined` (`src/App.tsx`, lines
239-240): the text content of an element is never `null`, and the empty
string is falsy. -/
def textOrUndef (e : XmlElem) : Option String :=
  if e.text = "" then none else some e.text

/-- The `GPXPoint` extracted from one `trkpt` element by
`handleGpxUpload` (`src/App.tsx`, lines 231-242): `lat` and `lon` from
`parseFloat(getAttribute(...) || '0')`, `name` and `time` from the first
matching descendant element, if any. -/
def trkptToPoint (trkpt : XmlElem) : GPXPoint :=
  { lat := (trkpt.getAttr "lat").getD 0
    lon := (trkpt.getAttr "lon").getD 0
    name :=
      match (elemsByTagList "name" trkpt.children).head? with
      | some e => textOrUndef e
      | none => none
    time :=
      match (elemsByTagList "time" trkpt.children).head? with
      | some e => textOrUndef e
      | none => none }

/-- The GPX-viewer `useState` cells touched by `handleGpxUpload`
(`src/App.tsx`, lines 189-192). -/
structure GpxState where
  gpxFile : Option String
  gpxPoints : List GPXPoint
  gpxLoading : Bool
  gpxError : Option String
  deriving DecidableEq

/-- Embeds `handleGpxUpload` (`src/App.tsx`, lines 204-256) on the
parsed document: record the file, reset the points and the error; fail
with `Error parsing GPX file.` when the document contains a
`parsererror` element, with `No track points found in GPX file.` when it
has no `trkpt` element, and publish the extracted points otherwise;
`gpxLoading` ends `false` in every case. -/
def handleGpxUpload (fileName : String) (doc : XmlElem) (s : GpxState) :
    GpxState :=
  let base : GpxState :=
    { s with gpxFile := some fileName, gpxPoints := [],
             gpxLoading := false, gpxError := none }
  if 0 < (elemsByTag "parsererror" doc).length then
    { base with gpxError := some "Error parsing GPX file." }
  else
    let trkpts := elemsByTag "trkpt" doc
    let points := (List.range trkpts.length).foldl
      (fun pts i => pts ++ [trkptToPoint (trkpts.getD i default)]) []
    if points.length = 0 then
      { base with gpxError := some "No track points found in GPX file." }
    else
      { base with gpxPoints := points }

lemma gpxPointsLoop_eq (doc : XmlElem) :
    (List.range (elemsByTag "trkpt" doc).length).foldl
        (fun pts i =>
          pts ++ [trkptToPoint ((elemsByTag "trkpt" doc).getD i default)])
        []
      = (elemsByTag "trkpt" doc).map trkptToPoint := by
  rw [foldl_push_range]
  simpa using map_getD_range trkptToPoint (elemsByTag "trkpt" doc)

/-- C6: GPX upload fails with only a user-facing message —
`handleGpxUpload` publishes a non-empty point list exactly when the
document parsed without a `parsererror` element and contains at least
one `trkpt`; in every other case the point list stays empty and a
non-null error message is set. -/
theorem handleGpxUpload_error_handling (fileName : String) (doc : XmlElem)
    (s : GpxState) :
    ((handleGpxUpload fileName doc s).gpxPoints ≠ [] ↔
       (elemsByTag "parsererror" doc = [] ∧ elemsByTag "trkpt" doc ≠ [])) ∧
    (elemsByTag "parsererror" doc ≠ [] ∨ elemsByTag "trkpt" doc = [] →
       (handleGpxUpload fileName doc s).gpxPoints = [] ∧
       (handleGpxUpload fileName doc s).gpxError ≠ none) ∧
    (elemsByTag "parsererror" doc = [] → elemsByTag "trkpt" doc ≠ [] →
       (handleGpxUpload fileName doc s).gpxPoints
         = (elemsByTag "trkpt" doc).map trkptToPoint ∧
       (handleGpxUpload fileName doc s).gpxError = none) := by
  simp only [handleGpxUpload, gpxPointsLoop_eq]
  by_cases hp : 0 < (elemsByTag "parsererror" doc).length
  · have hp2 : elemsByTag "parsererror" doc ≠ [] := by
      intro hnil; rw [hnil] at hp; simp at hp
    rw [if_pos hp]
    refine ⟨by simp [hp2], fun _ => by simp, fun h1 _ => absurd h1 hp2⟩
  · have hp2 : elemsByTag "parsererror" doc = [] := by
      simpa using Nat.le_zero.mp (Nat.not_lt.mp hp)
    rw [if_neg hp]
    by_cases ht : ((elemsByTag "trkpt" doc).map trkptToPoint).length = 0
    · have ht2 : elemsByTag "trkpt" doc = [] := by
        simpa using ht
      rw [if_pos ht]
      exact ⟨by simp [ht2], fun _ => by simp, fun _ h2 => absurd ht2 h2⟩
    · have ht2 : elemsByTag "trkpt" doc ≠ [] := by
        intro hnil; rw [hnil] at ht; simp at ht
      have ht3 : (elemsByTag "trkpt" doc).map trkptToPoint ≠ [] := by
        simpa using ht2
      rw [if_neg ht]
      refine ⟨by simp [hp2, ht2, ht3], ?_, fun _ _ => ⟨rfl, rfl⟩⟩
      rintro (h | h)
      · exact (h hp2).elim
      · exact (ht2 h).elim

/-- Witness for C6: a GPX document with no track point leaves the point
list empty and reports an error. -/
theorem handleGpxUpload_error_handling_witness :
    (handleGpxUpload "route.gpx" (XmlElem.mk "gpx" [] "" [])
        (GpxState.mk none [] false none)).gpxPoints = [] ∧
    (handleGpxUpload "route.gpx" (XmlElem.mk "gpx" [] "" [])
        (GpxState.mk none [] false none)).gpxError ≠ none :=
  (handleGpxUpload_error_handling "route.gpx" (XmlElem.mk "gpx" [] "" [])
      (GpxState.mk none [] false none)).2.1
    (Or.inr (by simp [elemsByTag, elemsByTagList]))

/-- Embeds `deg2rad` (`src/App.tsx`, lines 330-332):
`deg * (Math.PI / 180)`. -/
noncomputable def deg2rad (deg : ℝ) : ℝ :=
  deg * (Real.pi / 180)

/-- Models `Math.atan2(y, x)` as the argument of the complex number
`x + y·i`, which agrees with `atan2` on all of `ℝ × ℝ` (both return `0`
at the origin). -/
noncomputable def atan2 (y x : ℝ) : ℝ :=
  Complex.arg ⟨x, y⟩

/-- Embeds `getDistanceFromLatLonInKm` (`src/App.tsx`, lines 311-328):
the haversine great-circle distance with Earth radius `R = 6371` km. -/
noncomputable def getDistanceFromLatLonInKm (lat1 lon1 lat2 lon2 : ℝ) : ℝ :=
  let R : ℝ := 6371
  let dLat := deg2rad (lat2 - lat1)
  let dLon := deg2rad (lon2 - lon1)
  let a :=
    Real.sin (dLat / 2) * Real.sin (dLat / 2) +
      Real.cos (deg2rad lat1) * Real.cos (deg2rad lat2) *
        Real.sin (dLon / 2) * Real.sin (dLon / 2)
  let c := 2 * atan2 (Real.sqrt a) (Real.sqrt (1 - a))
  R * c

/-- Embeds `calculateDistance` (`src/App.tsx`, lines 298-309): for `i`
from `0` to `images.length - 2`, accumulate the pairwise distance
between image `i` and image `i + 1`. -/
noncomputable def calculateDistance (images : List ImageMetadata) : ℝ :=
  (List.range (images.length - 1)).foldl
    (fun total i =>
      total + getDistanceFromLatLonInKm
        ((images.getD i default).latitude : ℝ)
        ((images.getD i default).longitude : ℝ)
        ((images.getD (i + 1) default).latitude : ℝ)
        ((images.getD (i + 1) default).longitude : ℝ))
    0

/-- The haversine `a`-term exactly as the claim words it, with squares
written as powers. -/
noncomputable def haversineSpecA (lat1 lon1 lat2 lon2 : ℝ) : ℝ :=
  Real.sin (deg2rad (lat2 - lat1) / 2) ^ 2 +
    Real.cos (deg2rad lat1) * Real.cos (deg2rad lat2) *
      Real.sin (deg2rad (lon2 - lon1) / 2) ^ 2

/-- The pairwise haversine distance as the claim words it:
`d = 2·R·atan2(√a, √(1 - a))` with `R = 6371`. -/
noncomputable def haversineSpec (lat1 lon1 lat2 lon2 : ℝ) : ℝ :=
  2 * 6371 *
    atan2 (Real.sqrt (haversineSpecA lat1 lon1 lat2 lon2))
      (Real.sqrt (1 - haversineSpecA lat1 lon1 lat2 lon2))

lemma getDistance_eq_spec (lat1 lon1 lat2 lon2 : ℝ) :
    getDistanceFromLatLonInKm lat1 lon1 lat2 lon2
      = haversineSpec lat1 lon1 lat2 lon2 := by
  simp only [getDistanceFromLatLonInKm, haversineSpec, haversineSpecA]
  have ha :
      Real.sin (deg2rad (lat2 - lat1) / 2) * Real.sin (deg2rad (lat2 - lat1) / 2) +
        Real.cos (deg2rad lat1) * Real.cos (deg2rad lat2) *
          Real.sin (deg2rad (lon2 - lon1) / 2) * Real.sin (deg2rad (lon2 - lon1) / 2)
        = Real.sin (deg2rad (lat2 - lat1) / 2) ^ 2 +
            Real.cos (deg2rad lat1) * Real.cos (deg2rad lat2) *
              Real.sin (deg2rad (lon2 - lon1) / 2) ^ 2 := by ring
  rw [ha]
  ring

lemma foldl_add_range (f : ℕ → ℝ) :
    ∀ (n : ℕ) (a : ℝ),
      (List.range n).foldl (fun t i => t + f i) a
        = a + ∑ i ∈ Finset.range n, f i := by
  intro n
  induction n with
  | zero => intro a; simp
  | succ n ih =>
      intro a
      rw [List.range_succ, List.foldl_append]
      simp [ih, Finset.sum_range_succ, add_assoc]

/-- C2: `calculateDistance` is the sum, over consecutive image pairs, of
the haversine great-circle distance
`2·R·atan2(√a, √(1-a))`, `a = sin²(dLat/2) + cos(lat1)·cos(lat2)·sin²(dLon/2)`,
with `R = 6371` km and degree-to-radian conversion. -/
theorem calculateDistance_eq_haversine_sum (images : List ImageMetadata) :
    calculateDistance images
      = ∑ i ∈ Finset.range (images.length - 1),
          haversineSpec
            ((images.getD i default).latitude : ℝ)
            ((images.getD i default).longitude : ℝ)
            ((images.getD (i + 1) default).latitude : ℝ)
            ((images.getD (i + 1) default).longitude : ℝ) := by
  unfold calculateDistance
  rw [foldl_add_range]
  simp [getDistance_eq_spec]

lemma atan2_nonneg (y x : ℝ) (hy : 0 ≤ y) : 0 ≤ atan2 y x := by
  unfold atan2
  exact Complex.arg_nonneg_iff.mpr hy

lemma atan2_zero_one : atan2 0 1 = 0 := by
  unfold atan2
  have h : (⟨1, 0⟩ : ℂ) = 1 := by
    apply Complex.ext <;> simp
  rw [h]
  exact Complex.arg_one

/-- C9: the pairwise distance helper is symmetric, non-negative and zero
on identical points, and `calculateDistance` is `0` on every list with
fewer than two images. -/
theorem getDistance_symm_nonneg_zero :
    (∀ lat1 lon1 lat2 lon2 : ℝ,
       getDistanceFromLatLonInKm lat1 lon1 lat2 lon2
         = getDistanceFromLatLonInKm lat2 lon2 lat1 lon1) ∧
    (∀ lat1 lon1 lat2 lon2 : ℝ,
       0 ≤ getDistanceFromLatLonInKm lat1 lon1 lat2 lon2) ∧
    (∀ lat lon : ℝ, getDistanceFromLatLonInKm lat lon lat lon = 0) ∧
    (∀ images : List ImageMetadata, images.length < 2 →
       calculateDistance images = 0) := by
  refine ⟨?_, ?_, ?_, ?_⟩
  · intro lat1 lon1 lat2 lon2
    simp only [getDistanceFromLatLonInKm]
    have h1 : deg2rad (lat1 - lat2) / 2 = -(deg2rad (lat2 - lat1) / 2) := by
      unfold deg2rad; ring
    have h2 : deg2rad (lon1 - lon2) / 2 = -(deg2rad (lon2 - lon1) / 2) := by
      unfold deg2rad; ring
    rw [h1, h2]
    simp only [Real.sin_neg]
    ring_nf
  · intro lat1 lon1 lat2 lon2
    simp only [getDistanceFromLatLonInKm]
    refine mul_nonneg (by norm_num) (mul_nonneg (by norm_num) ?_)
    exact atan2_nonneg _ _ (Real.sqrt_nonneg _)
  · intro lat lon
    simp only [getDistanceFromLatLonInKm]
    have h0 : deg2rad (lat - lat) = 0 := by unfold deg2rad; ring
    have h0' : deg2rad (lon - lon) = 0 := by unfold deg2rad; ring
    rw [h0, h0']
    norm_num [Real.sin_zero, Real.sqrt_zero, Real.sqrt_one, atan2_zero_one]
  · intro images h
    unfold calculateDistance
    have h0 : images.length - 1 = 0 := by omega
    rw [h0]
    simp

/-- Witness for C9: the empty image list has total distance `0`. -/
theorem getDistance_symm_nonneg_zero_witness :
    calculateDistance [] = 0 :=
  getDistance_symm_nonneg_zero.2.2.2 [] (by norm_num)

end MapMyShots
